import Mathlib

/-!
Verification development for the `krkn-operator-data-provider` server
(`src/krkn-operator-data-provider/server.py`).

The program is a single gRPC request handler, `DataProviderServicer.GetNodes`,
plus a `serve` bootstrap.  The handler:
  1. base64-decodes `request.kubeconfig_base64` (Python `base64.b64decode`,
     non-validating mode) and interprets the bytes as UTF-8
     (`bytes.decode('utf-8')`, strict);
  2. constructs a `KrknKubernetes` client from the decoded text;
  3. calls `list_nodes()` on the client;
  4. on success returns `GetNodesResponse(nodes=nodes)`;
  5. on any exception sets `grpc.StatusCode.INTERNAL` with details
     `"Failed to get nodes: " + str(e)` and returns an empty response.

The external library calls (`KrknKubernetes(...)`, `list_nodes()`) are
modelled as an environment of functions that either return a value or raise
an exception (carried as its message string).  The base64 and UTF-8 decoding
steps are embedded concretely, following CPython's `binascii.a2b_base64`
(`strict_mode=False`, the mode `base64.b64decode` uses here) and the strict
UTF-8 codec.  Log lines and external calls are recorded as traces so that
claims about logging and about which external operations are attempted can
be stated.
-/

/-- CPython `binascii` translation table for base64 data characters
(`table_a2b_base64`): `A`-`Z` map to 0-25, `a`-`z` to 26-51, `0`-`9` to
52-61, `+` to 62, `/` to 63; every other character is invalid. -/
def b64Table (c : Char) : Option Nat :=
  if 'A' ≤ c ∧ c ≤ 'Z' then some (c.toNat - 65)
  else if 'a' ≤ c ∧ c ≤ 'z' then some (c.toNat - 97 + 26)
  else if '0' ≤ c ∧ c ≤ '9' then some (c.toNat - 48 + 52)
  else if c = '+' then some 62
  else if c = '/' then some 63
  else none

/-- Loop of CPython `binascii.a2b_base64` with `strict_mode=False` (the mode
used by `base64.b64decode(s)` in the handler).  Characters outside the
base64 alphabet are silently skipped.  A pad character `=` seen at quad
position ≥ 2 that completes the quad ends the decode, returning the bytes
accumulated so far.  At end of input, a quad position of 1 is the
"number of data characters cannot be 1 more than a multiple of 4" error and
a quad position of 2 or 3 is the "Invalid padding" error.
Arguments: remaining input, quad position, leftover bits, count of pads in
the current run, count of data characters seen, accumulated output bytes
(reversed). -/
def a2bBase64Loop : List Char → Nat → Nat → Nat → Nat → List Nat →
    Except String (List Nat)
  | [], quadPos, _, _, ndata, acc =>
    if quadPos = 0 then Except.ok acc.reverse
    else if quadPos = 1 then
      Except.error ("Invalid base64-encoded string: number of data characters ("
        ++ toString ndata ++ ") cannot be 1 more than a multiple of 4")
    else Except.error "Invalid padding"
  | c :: rest, quadPos, leftchar, pads, ndata, acc =>
    if c = '=' then
      if 2 ≤ quadPos then
        if 4 ≤ quadPos + (pads + 1) then Except.ok acc.reverse
        else a2bBase64Loop rest quadPos leftchar (pads + 1) ndata acc
      else a2bBase64Loop rest quadPos leftchar pads ndata acc
    else
      match b64Table c with
      | none => a2bBase64Loop rest quadPos leftchar pads ndata acc
      | some v =>
        match quadPos with
        | 0 => a2bBase64Loop rest 1 v 0 (ndata + 1) acc
        | 1 => a2bBase64Loop rest 2 (v % 16) 0 (ndata + 1)
            ((leftchar * 4 + v / 16) :: acc)
        | 2 => a2bBase64Loop rest 3 (v % 4) 0 (ndata + 1)
            ((leftchar * 16 + v / 4) :: acc)
        | _ => a2bBase64Loop rest 0 0 0 (ndata + 1)
            ((leftchar * 64 + v) :: acc)

/-- Python `base64.b64decode` applied to a `str`: the string is first
encoded as ASCII (a non-ASCII character raises `ValueError`), then decoded
by `binascii.a2b_base64` in non-strict mode. -/
def pyB64Decode (s : String) : Except String (List Nat) :=
  if s.data.all (fun c => c.toNat < 128) then
    a2bBase64Loop s.data 0 0 0 0 []
  else
    Except.error "string argument should contain only ASCII characters"

/-- Strict UTF-8 decoder (Python `bytes.decode('utf-8')`): rejects invalid
start bytes, invalid continuation bytes, overlong encodings, surrogate code
points and code points above U+10FFFF, and truncated sequences. -/
def utf8DecodeLoop : List Nat → List Char → Except String (List Char)
  | [], acc => Except.ok acc.reverse
  | b :: rest, acc =>
    if b < 0x80 then
      utf8DecodeLoop rest (Char.ofNat b :: acc)
    else if b < 0xC2 then
      Except.error "invalid start byte"
    else if b < 0xE0 then
      match rest with
      | [] => Except.error "unexpected end of data"
      | b1 :: rest2 =>
        if 0x80 ≤ b1 ∧ b1 < 0xC0 then
          utf8DecodeLoop rest2 (Char.ofNat ((b - 0xC0) * 64 + (b1 - 0x80)) :: acc)
        else Except.error "invalid continuation byte"
    else if b < 0xF0 then
      match rest with
      | [] => Except.error "unexpected end of data"
      | [_] => Except.error "unexpected end of data"
      | b1 :: b2 :: rest2 =>
        let lo1 : Nat := if b = 0xE0 then 0xA0 else 0x80
        let hi1 : Nat := if b = 0xED then 0xA0 else 0xC0
        if lo1 ≤ b1 ∧ b1 < hi1 then
          if 0x80 ≤ b2 ∧ b2 < 0xC0 then
            utf8DecodeLoop rest2
              (Char.ofNat ((b - 0xE0) * 4096 + (b1 - 0x80) * 64 + (b2 - 0x80)) :: acc)
          else Except.error "invalid continuation byte"
        else Except.error "invalid continuation byte"
    else if b < 0xF5 then
      match rest with
      | [] => Except.error "unexpected end of data"
      | [_] => Except.error "unexpected end of data"
      | [_, _] => Except.error "unexpected end of data"
      | b1 :: b2 :: b3 :: rest2 =>
        let lo1 : Nat := if b = 0xF0 then 0x90 else 0x80
        let hi1 : Nat := if b = 0xF4 then 0x90 else 0xC0
        if lo1 ≤ b1 ∧ b1 < hi1 then
          if 0x80 ≤ b2 ∧ b2 < 0xC0 then
            if 0x80 ≤ b3 ∧ b3 < 0xC0 then
              utf8DecodeLoop rest2
                (Char.ofNat ((b - 0xF0) * 262144 + (b1 - 0x80) * 4096
                  + (b2 - 0x80) * 64 + (b3 - 0x80)) :: acc)
            else Except.error "invalid continuation byte"
          else Except.error "invalid continuation byte"
        else Except.error "invalid continuation byte"
    else
      Except.error "invalid start byte"

/-- Python `bytes.decode('utf-8')` on a byte list. -/
def utf8Decode (bs : List Nat) : Except String String :=
  match utf8DecodeLoop bs [] with
  | Except.ok cs => Except.ok (String.mk cs)
  | Except.error e => Except.error e

/-- The wire request message: a single field `kubeconfig_base64`. -/
structure GetNodesRequest where
  kubeconfig_base64 : String
deriving DecidableEq

/-- The wire response message: a single repeated field `nodes`.  The
default-constructed response (`GetNodesResponse()`) has an empty list. -/
structure GetNodesResponse where
  nodes : List String := []
deriving DecidableEq

/-- gRPC status codes used by the handler (`grpc.StatusCode`). -/
inductive StatusCode
  | OK
  | INTERNAL
  | UNAVAILABLE
deriving DecidableEq

/-- The mutable per-call gRPC context: `set_code` / `set_details` targets.
A fresh context has no code and no details set. -/
structure GrpcContext where
  code : Option StatusCode := none
  details : Option String := none
deriving DecidableEq

/-- Python logging levels used by the handler. -/
inductive LogLevel
  | debug
  | info
  | error
deriving DecidableEq

/-- One emitted log line. -/
structure LogEntry where
  level : LogLevel
  msg : String
deriving DecidableEq

/-- One call into the external `krkn_lib` collaborator: constructing a
`KrknKubernetes` client from a decoded kubeconfig string, or calling
`list_nodes()` on the client built from that string. -/
inductive ExtCall
  | initClient (kubeconfig : String)
  | listNodes (kubeconfig : String)
deriving DecidableEq

/-- Behaviour of the external collaborators for one request: what
`KrknKubernetes(kubeconfig_path="", kubeconfig_string=s)` does (returns a
client or raises), and what `list_nodes()` on that client does (returns
node names or raises).  The client is identified by its kubeconfig string.
Exceptions are carried as their `str(e)` message. -/
structure ClusterEnv where
  initClient : String → Except String Unit
  list_nodes : String → Except String (List String)

/-- The body of the `try:` block of `GetNodes` (server.py lines 39-56).
Returns either the node list together with the log lines and external calls
made so far, or the raised exception's message together with the log lines
and external calls made before the exception. -/
def GetNodesBody (env : ClusterEnv) (request : GetNodesRequest) :
    Except (String × List LogEntry × List ExtCall)
      (List String × List LogEntry × List ExtCall) :=
  match pyB64Decode request.kubeconfig_base64 with
  | Except.error e =>
    Except.error (e, [⟨LogLevel.info, "Received GetNodes request"⟩], [])
  | Except.ok bs =>
    match utf8Decode bs with
    | Except.error e =>
      Except.error (e, [⟨LogLevel.info, "Received GetNodes request"⟩], [])
    | Except.ok kubeconfig_decoded =>
      match env.initClient kubeconfig_decoded with
      | Except.error e =>
        Except.error (e,
          [⟨LogLevel.info, "Received GetNodes request"⟩,
           ⟨LogLevel.debug, "Kubeconfig decoded successfully"⟩],
          [ExtCall.initClient kubeconfig_decoded])
      | Except.ok _ =>
        match env.list_nodes kubeconfig_decoded with
        | Except.error e =>
          Except.error (e,
            [⟨LogLevel.info, "Received GetNodes request"⟩,
             ⟨LogLevel.debug, "Kubeconfig decoded successfully"⟩,
             ⟨LogLevel.info, "KrknKubernetes initialized successfully"⟩,
             ⟨LogLevel.info, "kubeconfig " ++ kubeconfig_decoded⟩],
            [ExtCall.initClient kubeconfig_decoded,
             ExtCall.listNodes kubeconfig_decoded])
        | Except.ok nodes =>
          Except.ok (nodes,
            [⟨LogLevel.info, "Received GetNodes request"⟩,
             ⟨LogLevel.debug, "Kubeconfig decoded successfully"⟩,
             ⟨LogLevel.info, "KrknKubernetes initialized successfully"⟩,
             ⟨LogLevel.info, "kubeconfig " ++ kubeconfig_decoded⟩,
             ⟨LogLevel.info,
               "Retrieved " ++ toString nodes.length ++ " nodes from cluster"⟩],
            [ExtCall.initClient kubeconfig_decoded,
             ExtCall.listNodes kubeconfig_decoded])

/-- Everything observable about one handled call: the returned response, the
final per-call context, the emitted log lines, and the external-library
calls attempted. -/
structure CallOutcome where
  response : GetNodesResponse
  context : GrpcContext
  logs : List LogEntry
  calls : List ExtCall
deriving DecidableEq

/-- `DataProviderServicer.GetNodes` (server.py lines 27-62): runs the try
body; on success returns `GetNodesResponse(nodes=nodes)` leaving the
context untouched; on any exception logs the error, sets the context code
to `INTERNAL` and the details to `"Failed to get nodes: " + str(e)`, and
returns the default empty response. -/
def GetNodes (env : ClusterEnv) (request : GetNodesRequest)
    (context : GrpcContext) : CallOutcome :=
  match GetNodesBody env request with
  | Except.ok (nodes, logs, calls) =>
    { response := { nodes := nodes }, context := context, logs := logs, calls := calls }
  | Except.error (e, logs, calls) =>
    { response := { nodes := [] }
      context := { context with
                   code := some StatusCode.INTERNAL
                   details := some ("Failed to get nodes: " ++ e) }
      logs := logs ++ [⟨LogLevel.error, "Error in GetNodes: " ++ e⟩]
      calls := calls }

/-- A fresh per-call gRPC context: no status code, no details. -/
def freshContext : GrpcContext := {}

/-- The servicer object holds no per-instance state, so the server's
handling of a request sequence is the independent handling of each request
with a fresh context: each call neither reads nor writes anything shared. -/
def runServer (env : ClusterEnv) (reqs : List GetNodesRequest) :
    List CallOutcome :=
  reqs.map (fun r => GetNodes env r freshContext)

/-- An RPC in flight at shutdown time, identified by the abstract amount of
work it still needs before completing (0 = already complete). -/
structure InflightRpc where
  remaining : Nat
deriving DecidableEq

/-- The gRPC server just before shutdown: whether it accepts new calls and
which RPCs are in flight. -/
structure GrpcServerState where
  acceptingNew : Bool
  inflight : List InflightRpc
deriving DecidableEq

/-- The observable result of stopping the server. -/
structure StopResult where
  acceptingNew : Bool
  finished : List InflightRpc
  aborted : List InflightRpc
deriving DecidableEq

/-- Semantics of `grpc.Server.stop(grace)` as documented by gRPC Python:
the server immediately stops accepting new RPCs; in-flight RPCs that can
complete within the grace period finish; RPCs still active when the grace
period elapses are aborted.  A grace of 0 aborts every RPC that has not
already completed. -/
def grpcStop (s : GrpcServerState) (grace : Nat) : StopResult :=
  { acceptingNew := false
    finished := s.inflight.filter (fun r => r.remaining ≤ grace)
    aborted := s.inflight.filter (fun r => grace < r.remaining) }

/-- The shutdown performed by `serve` on interrupt (server.py line 88):
`server.stop(0)`, a zero-second grace period. -/
def serveShutdown (s : GrpcServerState) : StopResult :=
  grpcStop s 0

/-- Modelled from the spec: a string is valid base64 when its length is a
multiple of four and it consists of base64-alphabet characters followed by
at most two `=` pad characters.  Used only to state which inputs are, in
the spec's words, "not valid base64". -/
def specValidBase64 (s : String) : Bool :=
  let cs := s.data
  let pad := (cs.reverse.takeWhile (fun c => c = '=')).length
  let dat := cs.take (cs.length - pad)
  cs.length % 4 == 0 && pad ≤ 2 && dat.all (fun c => (b64Table c).isSome)

/-- Environment in which the cluster client always constructs successfully
and `list_nodes` returns `["a", "b", "c"]`. -/
def envABC : ClusterEnv :=
  { initClient := fun _ => Except.ok ()
    list_nodes := fun _ => Except.ok ["a", "b", "c"] }

/-- Environment in which the cluster client always constructs successfully
and `list_nodes` returns the empty list (a cluster with zero nodes). -/
def envEmptyOk : ClusterEnv :=
  { initClient := fun _ => Except.ok ()
    list_nodes := fun _ => Except.ok [] }

/-- Recogniser for `list_nodes` entries in a call trace. -/
def isListNodesCall : ExtCall → Bool
  | ExtCall.listNodes _ => true
  | ExtCall.initClient _ => false

/-- Recogniser for client-construction entries in a call trace. -/
def isInitClientCall : ExtCall → Bool
  | ExtCall.initClient _ => true
  | ExtCall.listNodes _ => false

theorem getNodesBody_error_calls (env : ClusterEnv) (request : GetNodesRequest)
    (e : String) (logs : List LogEntry) (calls : List ExtCall)
    (h : GetNodesBody env request = Except.error (e, logs, calls)) :
    List.countP isListNodesCall calls ≤ 1 ∧
      List.countP isInitClientCall calls ≤ 1 := by
  unfold GetNodesBody at h
  repeat' split at h
  all_goals simp only [Except.error.injEq, Prod.mk.injEq, reduceCtorEq] at h
  all_goals obtain ⟨-, -, rfl⟩ := h
  all_goals
    simp [List.countP, List.countP.go, isListNodesCall, isInitClientCall]

/-- C1: for every request carrying a valid credential, when the cluster
client's list-nodes call returns node names `["a", "b", "c"]`, `GetNodes`
returns a response whose `nodes` field equals `["a", "b", "c"]` in the same
order, and no error status is set on the call (the context is left
untouched). -/
theorem C1_nodes_passed_through_in_order (env : ClusterEnv)
    (request : GetNodesRequest) (bs : List Nat) (kc : String)
    (context : GrpcContext)
    (hb : pyB64Decode request.kubeconfig_base64 = Except.ok bs)
    (hu : utf8Decode bs = Except.ok kc)
    (hi : env.initClient kc = Except.ok ())
    (hl : env.list_nodes kc = Except.ok ["a", "b", "c"]) :
    (GetNodes env request context).response.nodes = ["a", "b", "c"] ∧
      (GetNodes env request context).context = context := by
  simp [GetNodes, GetNodesBody, hb, hu, hi, hl]

/-- Witness for C1 at the request `"aGVsbG8="` (base64 of `"hello"`)
against a cluster returning `["a", "b", "c"]`. -/
theorem C1_nodes_passed_through_in_order_witness :
    (GetNodes envABC ⟨"aGVsbG8="⟩ freshContext).response.nodes =
        ["a", "b", "c"] ∧
      (GetNodes envABC ⟨"aGVsbG8="⟩ freshContext).context = freshContext :=
  C1_nodes_passed_through_in_order envABC ⟨"aGVsbG8="⟩
    [104, 101, 108, 108, 111] "hello" freshContext rfl rfl rfl rfl

/-- C2: any failure raised during credential decode, client construction,
or the listing call causes `GetNodes` to set exactly the `INTERNAL` status
with details `"Failed to get nodes: "` followed by the underlying cause's
string, and to return a response with an empty node list; no failure cause
receives a different status code, and the listing call is never retried
(at most one `list_nodes` call appears in the trace). -/
theorem C2_uniform_internal_error (env : ClusterEnv)
    (request : GetNodesRequest) (context : GrpcContext) (e : String)
    (logs : List LogEntry) (calls : List ExtCall)
    (h : GetNodesBody env request = Except.error (e, logs, calls)) :
    (GetNodes env request context).context.code = some StatusCode.INTERNAL ∧
      (GetNodes env request context).context.details =
        some ("Failed to get nodes: " ++ e) ∧
      (GetNodes env request context).response.nodes = [] ∧
      List.countP isListNodesCall (GetNodes env request context).calls ≤ 1 := by
  have hc := (getNodesBody_error_calls env request e logs calls h).1
  simp [GetNodes, h, hc]

/-- Witness for C2: the request `"a"` fails base64 decoding (one data
character), and the call ends with the `INTERNAL` status, the cause in the
details, and an empty node list. -/
theorem C2_uniform_internal_error_witness :
    (GetNodes envEmptyOk ⟨"a"⟩ freshContext).context.code =
        some StatusCode.INTERNAL ∧
      (GetNodes envEmptyOk ⟨"a"⟩ freshContext).context.details =
        some ("Failed to get nodes: " ++
          ("Invalid base64-encoded string: number of data characters (1)"
            ++ " cannot be 1 more than a multiple of 4")) ∧
      (GetNodes envEmptyOk ⟨"a"⟩ freshContext).response.nodes = [] ∧
      List.countP isListNodesCall
        (GetNodes envEmptyOk ⟨"a"⟩ freshContext).calls ≤ 1 :=
  C2_uniform_internal_error envEmptyOk ⟨"a"⟩ freshContext
    ("Invalid base64-encoded string: number of data characters (1)"
      ++ " cannot be 1 more than a multiple of 4")
    [⟨LogLevel.info, "Received GetNodes request"⟩] [] rfl

/-- C3 counterexample: the request `"!!!"` is not valid base64, yet
`GetNodes` does not fail: with a reachable cluster the call succeeds with
no error status, and both the client construction and the listing network
call are attempted — `base64.b64decode` silently discards the non-alphabet
characters instead of rejecting them. -/
theorem C3_counterexample_invalid_base64_succeeds :
    specValidBase64 "!!!" = false ∧
      (GetNodes envEmptyOk ⟨"!!!"⟩ freshContext).context.code = none ∧
      (GetNodes envEmptyOk ⟨"!!!"⟩ freshContext).calls =
        [ExtCall.initClient "", ExtCall.listNodes ""] := by
  refine ⟨rfl, rfl, rfl⟩

/-- C3 (amended): for every request whose `kubeconfig_base64` field makes
the handler's base64 decode step fail (after non-alphabet characters are
discarded, the data-character count or padding is wrong, or the string is
not ASCII), `GetNodes` fails with the `INTERNAL` status and an empty node
list, and no cluster client is constructed and no network call to the
cluster is attempted. -/
theorem C3_amended_decode_failure_stops_early (env : ClusterEnv)
    (request : GetNodesRequest) (context : GrpcContext) (e : String)
    (h : pyB64Decode request.kubeconfig_base64 = Except.error e) :
    (GetNodes env request context).context.code = some StatusCode.INTERNAL ∧
      (GetNodes env request context).response.nodes = [] ∧
      (GetNodes env request context).calls = [] := by
  simp [GetNodes, GetNodesBody, h]

/-- Witness for C3 (amended) at the request `"a"`: decode fails, the status
is `INTERNAL`, the node list is empty, and no external call is made. -/
theorem C3_amended_decode_failure_stops_early_witness :
    (GetNodes envABC ⟨"a"⟩ freshContext).context.code =
        some StatusCode.INTERNAL ∧
      (GetNodes envABC ⟨"a"⟩ freshContext).response.nodes = [] ∧
      (GetNodes envABC ⟨"a"⟩ freshContext).calls = [] :=
  C3_amended_decode_failure_stops_early envABC ⟨"a"⟩ freshContext
    ("Invalid base64-encoded string: number of data characters (1)"
      ++ " cannot be 1 more than a multiple of 4") rfl

/-- C4: for every request whose `kubeconfig_base64` field decodes from
base64 to a byte sequence that is not valid UTF-8, `GetNodes` fails with
the `INTERNAL` status and an empty node list, and no cluster client is
constructed and no network call is attempted. -/
theorem C4_invalid_utf8_stops_early (env : ClusterEnv)
    (request : GetNodesRequest) (context : GrpcContext) (bs : List Nat)
    (e : String)
    (hb : pyB64Decode request.kubeconfig_base64 = Except.ok bs)
    (hu : utf8Decode bs = Except.error e) :
    (GetNodes env request context).context.code = some StatusCode.INTERNAL ∧
      (GetNodes env request context).response.nodes = [] ∧
      (GetNodes env request context).calls = [] := by
  simp [GetNodes, GetNodesBody, hb, hu]

/-- Witness for C4 at the request `"/w=="`, which decodes to the single
byte `0xFF`, not valid UTF-8. -/
theorem C4_invalid_utf8_stops_early_witness :
    (GetNodes envABC ⟨"/w=="⟩ freshContext).context.code =
        some StatusCode.INTERNAL ∧
      (GetNodes envABC ⟨"/w=="⟩ freshContext).response.nodes = [] ∧
      (GetNodes envABC ⟨"/w=="⟩ freshContext).calls = [] :=
  C4_invalid_utf8_stops_early envABC ⟨"/w=="⟩ freshContext [255]
    "invalid start byte" rfl rfl

/-- C5: for every request with a valid credential against a cluster with
zero nodes, where the listing call returns the empty list, `GetNodes`
returns a response with `nodes = []` and a success status (the context is
left untouched), not an error. -/
theorem C5_empty_cluster_is_success (env : ClusterEnv)
    (request : GetNodesRequest) (bs : List Nat) (kc : String)
    (context : GrpcContext)
    (hb : pyB64Decode request.kubeconfig_base64 = Except.ok bs)
    (hu : utf8Decode bs = Except.ok kc)
    (hi : env.initClient kc = Except.ok ())
    (hl : env.list_nodes kc = Except.ok []) :
    (GetNodes env request context).response.nodes = [] ∧
      (GetNodes env request context).context = context := by
  simp [GetNodes, GetNodesBody, hb, hu, hi, hl]

/-- Witness for C5 at the request `"aGk="` (base64 of `"hi"`) against a
cluster with zero nodes. -/
theorem C5_empty_cluster_is_success_witness :
    (GetNodes envEmptyOk ⟨"aGk="⟩ freshContext).response.nodes = [] ∧
      (GetNodes envEmptyOk ⟨"aGk="⟩ freshContext).context = freshContext :=
  C5_empty_cluster_is_success envEmptyOk ⟨"aGk="⟩ [104, 105] "hi"
    freshContext rfl rfl rfl rfl

/-- C6: issuing the same valid request twice against an unchanged cluster
yields two identical, independent successful responses: the handler holds
no state between calls, so the second outcome is exactly the first. -/
theorem C6_idempotent_and_stateless (env : ClusterEnv)
    (request : GetNodesRequest) (bs : List Nat) (kc : String)
    (ns : List String)
    (hb : pyB64Decode request.kubeconfig_base64 = Except.ok bs)
    (hu : utf8Decode bs = Except.ok kc)
    (hi : env.initClient kc = Except.ok ())
    (hl : env.list_nodes kc = Except.ok ns) :
    runServer env [request, request] =
        [GetNodes env request freshContext, GetNodes env request freshContext] ∧
      (GetNodes env request freshContext).response.nodes = ns ∧
      (GetNodes env request freshContext).context.code = none := by
  refine ⟨rfl, ?_, ?_⟩ <;>
    simp [GetNodes, GetNodesBody, hb, hu, hi, hl, freshContext]

/-- Witness for C6 at the request `""` (base64 of the empty kubeconfig)
against a cluster returning `["a", "b", "c"]`. -/
theorem C6_idempotent_and_stateless_witness :
    runServer envABC [⟨""⟩, ⟨""⟩] =
        [GetNodes envABC ⟨""⟩ freshContext, GetNodes envABC ⟨""⟩ freshContext] ∧
      (GetNodes envABC ⟨""⟩ freshContext).response.nodes = ["a", "b", "c"] ∧
      (GetNodes envABC ⟨""⟩ freshContext).context.code = none :=
  C6_idempotent_and_stateless envABC ⟨""⟩ [] "" ["a", "b", "c"]
    rfl rfl rfl rfl

/-- C7: every exception raised within the handler's decode,
client-construction, or listing steps makes `GetNodes` return normally —
an error status and an empty response — rather than propagate; the server
goes on to answer every other request in a batch, so no request failure is
fatal to the listener. -/
theorem C7_failures_not_fatal (env : ClusterEnv)
    (request : GetNodesRequest) (e : String) (logs : List LogEntry)
    (calls : List ExtCall) (reqs : List GetNodesRequest)
    (h : GetNodesBody env request = Except.error (e, logs, calls)) :
    (GetNodes env request freshContext).context.code =
        some StatusCode.INTERNAL ∧
      (GetNodes env request freshContext).response = { nodes := [] } ∧
      (runServer env (request :: reqs)).length = reqs.length + 1 := by
  refine ⟨?_, ?_, ?_⟩ <;> simp [GetNodes, h, runServer]

/-- Witness for C7: the request `"ab"` fails base64 decoding (invalid
padding); the call still returns an outcome and a following request is
still served. -/
theorem C7_failures_not_fatal_witness :
    (GetNodes envEmptyOk ⟨"ab"⟩ freshContext).context.code =
        some StatusCode.INTERNAL ∧
      (GetNodes envEmptyOk ⟨"ab"⟩ freshContext).response = { nodes := [] } ∧
      (runServer envEmptyOk [⟨"ab"⟩, ⟨""⟩]).length = [(⟨""⟩ : GetNodesRequest)].length + 1 :=
  C7_failures_not_fatal envEmptyOk ⟨"ab"⟩ "Invalid padding"
    [⟨LogLevel.info, "Received GetNodes request"⟩] [] [⟨""⟩] rfl

/-- C8 counterexample: `serve` shuts down with `server.stop(0)`, a
zero-second grace period; an in-flight call that still needs work is
aborted immediately, not allowed to finish, refuting the claim that every
in-flight call finishes before exit. -/
theorem C8_counterexample_inflight_aborted :
    (serveShutdown { acceptingNew := true, inflight := [⟨1⟩] }).aborted =
        [⟨1⟩] ∧
      (serveShutdown { acceptingNew := true, inflight := [⟨1⟩] }).finished =
        [] := by
  refine ⟨rfl, rfl⟩

/-- C8 (amended): on a process interrupt the server stops accepting new
calls and immediately aborts every in-flight call that has not already
completed (the shutdown passes a grace period of zero), and only then
exits; in-flight calls are not allowed to finish. -/
theorem C8_amended_stop_with_zero_grace (s : GrpcServerState) :
    (serveShutdown s).acceptingNew = false ∧
      (serveShutdown s).finished =
        s.inflight.filter (fun r => r.remaining = 0) ∧
      (serveShutdown s).aborted =
        s.inflight.filter (fun r => 0 < r.remaining) := by
  refine ⟨rfl, ?_, ?_⟩ <;> simp [serveShutdown, grpcStop, Nat.le_zero,
    Nat.pos_iff_ne_zero]

/-- C9: on every request path on which the cluster client is successfully
constructed, the handler emits an informational log line containing the
fully decoded credential in cleartext. -/
theorem C9_credential_logged_in_cleartext (env : ClusterEnv)
    (request : GetNodesRequest) (bs : List Nat) (kc : String)
    (context : GrpcContext)
    (hb : pyB64Decode request.kubeconfig_base64 = Except.ok bs)
    (hu : utf8Decode bs = Except.ok kc)
    (hi : env.initClient kc = Except.ok ()) :
    LogEntry.mk LogLevel.info ("kubeconfig " ++ kc) ∈
      (GetNodes env request context).logs := by
  cases hl : env.list_nodes kc with
  | error e => simp [GetNodes, GetNodesBody, hb, hu, hi, hl]
  | ok ns => simp [GetNodes, GetNodesBody, hb, hu, hi, hl]

/-- Witness for C9 at the request `"aGk="`: the decoded credential `"hi"`
appears in cleartext in an info-level log line. -/
theorem C9_credential_logged_in_cleartext_witness :
    LogEntry.mk LogLevel.info ("kubeconfig " ++ "hi") ∈
      (GetNodes envABC ⟨"aGk="⟩ freshContext).logs :=
  C9_credential_logged_in_cleartext envABC ⟨"aGk="⟩ [104, 105] "hi"
    freshContext rfl rfl rfl

/-- C10: there are inputs that are not valid base64 — `"!!!"`, whose
characters all lie outside the base64 alphabet, and the handler's decode
step also accepts the empty string — on which `base64.b64decode` in its
default non-validating mode succeeds (discarding the non-alphabet
characters), so the handler proceeds to cluster-client construction
instead of failing at input validation. -/
theorem C10_nonvalidating_base64_decode :
    specValidBase64 "!!!" = false ∧
      pyB64Decode "!!!" = Except.ok [] ∧
      pyB64Decode "" = Except.ok [] ∧
      (GetNodes envABC ⟨"!!!"⟩ freshContext).calls =
        [ExtCall.initClient "", ExtCall.listNodes ""] := by
  refine ⟨rfl, rfl, rfl, rfl⟩
